import Mathlib

/-!
Verification development for the Clover sales-report generator
(`clover.py`).  The Python source is shallowly embedded: JSON values
are an inductive type, money amounts are exact rationals (Python's
float arithmetic taken at exact arithmetic), Python exceptions are
`Option`/`Except` failures, and the local timezone of
`datetime.fromtimestamp` is modelled as a fixed UTC offset of zero.
-/

namespace Clover

/-- A JSON value as handled by the script: nulls, numbers, strings,
arrays and objects (the script never meets a boolean in the fields it
reads, so booleans — which Python treats as integers — are outside
the model).  Numbers are modelled as exact rationals. -/
inductive Json : Type where
  | null : Json
  | num : ℚ → Json
  | str : String → Json
  | arr : List Json → Json
  | obj : List (String × Json) → Json
deriving Repr

/-- Key lookup in a JSON object (`d[k]` / membership); `none` when the
value is not an object or the key is missing. -/
def Json.get? : Json → String → Option Json
  | .obj fields, k => fields.lookup k
  | _, _ => none

/-- `d.get(k, default)` on a value already known to be a dict. -/
def Json.getD (j : Json) (k : String) (d : Json) : Json :=
  (j.get? k).getD d

/-- `d.get(k, default)` where a non-dict receiver is an
`AttributeError` (modelled as `none`). -/
def Json.dictGet (j : Json) (k : String) (d : Json) : Option Json :=
  match j with
  | .obj fields => some ((fields.lookup k).getD d)
  | _ => none

/-- Python truthiness of a JSON value (`if x:`). -/
def Json.truthy : Json → Bool
  | .null => false
  | .num q => decide (q ≠ 0)
  | .str s => decide (s ≠ "")
  | .arr l => !l.isEmpty
  | .obj fields => !fields.isEmpty

/-- Numeric content of a JSON value; `none` models the `TypeError`
Python raises when arithmetic or an order comparison hits a non-number. -/
def Json.asQ? : Json → Option ℚ
  | .num q => some q
  | _ => none

/-! ## Calendar arithmetic

`datetime.fromtimestamp` / `datetime(y, m, 1)` are modelled by the
standard civil-calendar conversions between Gregorian dates and days
since the Unix epoch, with the local timezone fixed at offset zero. -/

/-- Civil (Gregorian) date `(year, month, day)` of a day count since
1970-01-01. -/
def civilFromDays (z0 : Int) : Int × Int × Int :=
  let z := z0 + 719468
  let era := Int.fdiv z 146097
  let doe := z - era * 146097
  let yoe := Int.fdiv (doe - Int.fdiv doe 1460 + Int.fdiv doe 36524 - Int.fdiv doe 146096) 365
  let y := yoe + era * 400
  let doy := doe - (365 * yoe + Int.fdiv yoe 4 - Int.fdiv yoe 100)
  let mp := Int.fdiv (5 * doy + 2) 153
  let d := doy - Int.fdiv (153 * mp + 2) 5 + 1
  let m := mp + (if mp < 10 then 3 else -9)
  (y + (if m ≤ 2 then 1 else 0), m, d)

/-- Days since 1970-01-01 of a civil (Gregorian) date. -/
def daysFromCivil (y m d : Int) : Int :=
  let y' := y - (if m ≤ 2 then 1 else 0)
  let era := Int.fdiv y' 400
  let yoe := y' - era * 400
  let doy := Int.fdiv (153 * (m + (if 2 < m then -3 else 9)) + 2) 5 + d - 1
  let doe := yoe * 365 + Int.fdiv yoe 4 - Int.fdiv yoe 100 + doy
  era * 146097 + doe - 719468

/-- Day count since the epoch of an epoch-milliseconds timestamp
(`datetime.fromtimestamp(t / 1000)`, local timezone at offset zero).
Written as `⌊t⌋.fdiv 86400000`, which equals `⌊t / 86400000⌋`
(see `msToDay_eq_floor`). -/
def msToDay (t : ℚ) : Int :=
  Int.fdiv ⌊t⌋ 86400000

/-- Year of the local calendar date of an epoch-ms timestamp. -/
def msYear (t : ℚ) : Int := (civilFromDays (msToDay t)).1

/-- Month of the local calendar date of an epoch-ms timestamp. -/
def msMonth (t : ℚ) : Int := (civilFromDays (msToDay t)).2.1

/-- Day-of-month of the local calendar date of an epoch-ms timestamp. -/
def msDay (t : ℚ) : Int := (civilFromDays (msToDay t)).2.2

/-- `f"{n:02d}"`: decimal rendering zero-padded to width two. -/
def pad2 (n : Int) : String :=
  if 0 ≤ n ∧ n < 10 then "0" ++ toString n else toString n

/-- The date string `f"{year}-{month:02d}-{day:02d}"`; also the result
of `strftime('%Y-%m-%d')` for in-range dates. -/
def dateStr (year month day : Int) : String :=
  toString year ++ "-" ++ pad2 month ++ "-" ++ pad2 day

/-- `datetime.fromtimestamp(t / 1000).strftime('%Y-%m-%d')`. -/
def dateOfMs (t : ℚ) : String :=
  dateStr (msYear t) (msMonth t) (msDay t)

/-- `calendar.isleap`. -/
def isLeap (y : Int) : Bool :=
  y % 4 == 0 && (y % 100 != 0 || y % 400 == 0)

/-- The `calendar.mdays` table (index 0 unused). -/
def mdays : List Nat := [0, 31, 28, 31, 30, 31, 30, 31, 31, 30, 31, 30, 31]

/-- `calendar.monthrange(year, month)[1]`: the `mdays` entry of the
month plus the February leap adjustment (0 for a month outside 1..12,
where Python would raise). -/
def daysInMonth (y m : Int) : Nat :=
  mdays.getD m.toNat 0 + (if m = 2 ∧ isLeap y then 1 else 0)

/-! ## Remote client (`CloverAPI._make_request`)

The HTTP transport (the `requests` library) is external to the
repository.  Modelled from the spec: a request either fails at the
network level or yields a status code, a raw body and a parsed JSON
value, and `raise_for_status` raises exactly on a non-2xx status. -/

/-- Outcome of the underlying HTTP GET, the external input of
`_make_request`. -/
inductive HttpResult : Type where
  | ok : Nat → String → Json → HttpResult
  | netError : String → HttpResult
deriving Repr

/-- Modelled from the spec: whether `response.raise_for_status()`
raises, i.e. whether the status is not a 2xx success status. -/
def raiseForStatus (status : Nat) : Bool :=
  !(200 ≤ status && status < 300)

/-- The failure message printed by `_make_request` before re-raising:
`API request failed: ...` followed by `Response content:` with the raw
response body. -/
def failureMessage (status : Nat) (body : String) : String :=
  "API request failed: HTTP " ++ toString status ++ "; Response content: " ++ body

/-- `CloverAPI._make_request`: returns the parsed JSON of a 2xx
response and raises (models: `Except.error`, carrying the printed
failure output including the response body) on a non-2xx status or a
network error. -/
def _make_request (http : HttpResult) : Except String Json :=
  match http with
  | .netError msg => .error ("API request failed: " ++ msg)
  | .ok status body json =>
      if raiseForStatus status then .error (failureMessage status body) else .ok json

/-! ## Batch retrieval (`CloverAPI.get_closeouts_by_month`) -/

/-- One step of the filtering loop of `get_closeouts_by_month`:
`batch.get('createdTime', 0)` followed by the truthiness test and, for
a truthy timestamp, `datetime.fromtimestamp(t / 1000)` compared
against the requested year and month.  `none` models an exception
(`AttributeError` on a non-dict batch, `TypeError` on a truthy
non-numeric timestamp). -/
def monthFilter (year month : Int) (batch : Json) : Option Bool := do
  let t ← batch.dictGet "createdTime" (.num 0)
  if t.truthy then
    match t.asQ? with
    | some q => some (decide (msYear q = year) && decide (msMonth q = month))
    | none => none
  else
    some false

/-- The filtering loop of `get_closeouts_by_month` over the `elements`
list; `none` when an iteration raises (in Python the whole partial
result is then discarded by the surrounding `except`). -/
def filterBatchesM (year month : Int) : List Json → Option (List Json)
  | [] => some []
  | b :: rest => do
      let keep ← monthFilter year month b
      let tail ← filterBatchesM year month rest
      pure (if keep then b :: tail else tail)

/-- `CloverAPI.get_closeouts_by_month`: fetches `/batches?limit=901`
through `_make_request` and filters the `elements` client-side to the
batches whose local `createdTime` date lies in the requested month.
Any exception (a failed request, a non-list `elements`, a malformed
`createdTime`) is caught and yields `[]`.  The printed date-range
banner is omitted; its `datetime(year, month, 1)` construction raises
for a month outside 1..12, so the model is faithful for months
1..12 (the only ones the validated CLI passes down). -/
def get_closeouts_by_month (year month : Int) (http : HttpResult) : List Json :=
  match _make_request http with
  | .error _ => []
  | .ok response =>
      match response.getD "elements" (.arr []) with
      | .arr allBatches =>
          match filterBatchesM year month allBatches with
          | some filtered => filtered
          | none => []
      | _ => []

/-! ## Per-batch summary (`CloverAPI._format_single_batch`) -/

/-- A per-batch summary / daily CSV row: `{date, debit, tip, total}`
with amounts in currency units (exact rationals). -/
structure Row : Type where
  date : String
  debit : ℚ
  tip : ℚ
  total : ℚ
deriving Repr, DecidableEq

/-- The `sales_amount` computation of `_format_single_batch`:
`sales = batch_totals.get('sales', {})`, then `sales.get('total', 0) / 100`
when `sales` is truthy and `0.0` otherwise. -/
def salesAmount? (batchTotals : Json) : Option ℚ := do
  let sales ← batchTotals.dictGet "sales" (.obj [])
  if sales.truthy then do
    let t ← sales.dictGet "total" (.num 0)
    let q ← t.asQ?
    pure (q / 100)
  else pure 0

/-- The `tip_amount` computation of `_format_single_batch`:
`tips = batch_totals.get('tips', {})`, then `tips.get('total', 0) / 100`
when `tips` is truthy with `tips.get('count', 0) > 0`, else `0.0`. -/
def tipAmount? (batchTotals : Json) : Option ℚ := do
  let tips ← batchTotals.dictGet "tips" (.obj [])
  if tips.truthy then do
    let c ← tips.dictGet "count" (.num 0)
    let cq ← c.asQ?
    if 0 < cq then do
      let t ← tips.dictGet "total" (.num 0)
      let q ← t.asQ?
      pure (q / 100)
    else pure 0
  else pure 0

/-- The amounts triple `(debit, tip_amount, sales_amount)` of
`_format_single_batch`: all zero unless `batchDetails` is present and
truthy with a truthy `batchTotals`, in which case
`debit = sales_amount - tip_amount`. -/
def batchAmounts? (batch : Json) : Option (ℚ × ℚ × ℚ) :=
  match batch.get? "batchDetails" with
  | some details =>
      if details.truthy then do
        let batchTotals ← details.dictGet "batchTotals" (.obj [])
        if batchTotals.truthy then do
          let salesAmount ← salesAmount? batchTotals
          let tipAmount ← tipAmount? batchTotals
          pure (salesAmount - tipAmount, tipAmount, salesAmount)
        else pure (0, 0, 0)
      else pure (0, 0, 0)
  | none => pure (0, 0, 0)

/-- `CloverAPI._format_single_batch`: date from `createdTime` (the
string `"Unknown"` for a falsy timestamp), `total = sales.total / 100`,
`tip = tips.total / 100` when `tips.count > 0` and `0` otherwise, and
`debit = total - tip`; every absent or falsy level of
`batchDetails.batchTotals` leaves the affected amounts at `0.0`.
`none` models an uncaught `AttributeError`/`TypeError` on malformed
(non-dict / non-numeric) values. -/
def _format_single_batch (batch : Json) : Option Row := do
  match batch with
  | .obj _ => do
      let ct := batch.getD "createdTime" (.num 0)
      let createdDate ←
        if ct.truthy then (ct.asQ?).map dateOfMs else some "Unknown"
      let (debit, tipAmount, salesAmount) ← batchAmounts? batch
      pure { date := createdDate, debit := debit, tip := tipAmount, total := salesAmount }
  | _ => none

/-! ## Daily aggregation (`CloverAPI.generate_monthly_csv_data`) -/

/-- Adding one per-batch summary into the `daily_data` accumulator:
the existing entry for the same date is incremented field-wise, a new
date is appended with the summary's amounts (starting from the
all-zero entry Python creates first). -/
def upsert (daily : List (String × Row)) (r : Row) : List (String × Row) :=
  match daily with
  | [] => [(r.date, { date := r.date, debit := r.debit, tip := r.tip, total := r.total })]
  | (k, v) :: rest =>
      if k = r.date then
        (k, { date := v.date, debit := v.debit + r.debit, tip := v.tip + r.tip,
              total := v.total + r.total }) :: rest
      else
        (k, v) :: upsert rest r

/-- The grouping loop of `generate_monthly_csv_data`: a left fold of
`upsert` over the per-batch summaries. -/
def groupDaily (daily : List (String × Row)) : List Row → List (String × Row)
  | [] => daily
  | r :: rest => groupDaily (upsert daily r) rest

/-- `CloverAPI.generate_monthly_csv_data`: fetches the month's batches,
groups their summaries by date string, then emits one row per calendar
day of the month — the grouped sums when the day has batches, an
all-zero row otherwise.  `none` models an exception escaping
`_format_single_batch`. -/
def generate_monthly_csv_data (year month : Int) (http : HttpResult) : Option (List Row) := do
  let batches := get_closeouts_by_month year month http
  let summaries ← batches.mapM _format_single_batch
  let dailyData := groupDaily [] summaries
  let numDays := daysInMonth year month
  pure ((List.range numDays).map (fun (i : Nat) =>
    let dStr := dateStr year month ((i : Int) + 1)
    match dailyData.lookup dStr with
    | some r => r
    | none => { date := dStr, debit := 0, tip := 0, total := 0 }))

/-! ## CSV export (`CloverAPI.export_monthly_csv`,
`CloverAPI.export_multiple_months_csv`)

The CSV files are modelled by structures carrying the daily rows, the
computed column totals and the formatted trailing row; the actual file
write is outside the model. -/

/-- Zero-padded two-digit rendering of a natural number. -/
def pad2Nat (n : Nat) : String :=
  if n < 10 then "0" ++ toString n else toString n

/-- `f"{x:.2f}"` taken at exact arithmetic: the amount rounded to
cents (round-half-up standing in for the float's round-half-even,
which only differs on exact half-cent boundaries) and rendered with
two decimals. -/
def fmt2 (q : ℚ) : String :=
  let c : Int := round (q * 100)
  let sign := if c < 0 then "-" else ""
  sign ++ toString (c.natAbs / 100) ++ "." ++ pad2Nat (c.natAbs % 100)

/-- `calendar.month_name[m]` for `m` in 1..12. -/
def month_name (m : Int) : String :=
  if m = 1 then "January" else if m = 2 then "February"
  else if m = 3 then "March" else if m = 4 then "April"
  else if m = 5 then "May" else if m = 6 then "June"
  else if m = 7 then "July" else if m = 8 then "August"
  else if m = 9 then "September" else if m = 10 then "October"
  else if m = 11 then "November" else if m = 12 then "December" else ""

/-- One formatted CSV body line: date plus the three amounts at two
decimals. -/
def fmtRow (r : Row) : List String :=
  [r.date, fmt2 r.debit, fmt2 r.tip, fmt2 r.total]

/-- The written monthly CSV file: free-text headers, column header,
one body line per day, and the trailing `TOTAL` row (kept both as the
computed exact totals and as the formatted line). -/
structure MonthlyCsv : Type where
  filename : String
  headerTitle : String
  rows : List Row
  body : List (List String)
  totalDebit : ℚ
  totalTips : ℚ
  totalSales : ℚ
  totalRow : List String
deriving Repr

/-- `CloverAPI.export_monthly_csv`: default filename
`clover_monthly_data_<YYYY>_<MM>.csv`, body rows from
`generate_monthly_csv_data`, column totals summed over all daily rows,
trailing `TOTAL` row. -/
def export_monthly_csv (year month : Int) (http : HttpResult)
    (filename : Option String) : Option MonthlyCsv := do
  let fname := filename.getD
    ("clover_monthly_data_" ++ toString year ++ "_" ++ pad2 month ++ ".csv")
  let monthlyData ← generate_monthly_csv_data year month http
  let totalDebit := (monthlyData.map Row.debit).sum
  let totalTips := (monthlyData.map Row.tip).sum
  let totalSales := (monthlyData.map Row.total).sum
  pure { filename := fname
         headerTitle := "Sales for the month of " ++ month_name month ++ " " ++ toString year
         rows := monthlyData
         body := monthlyData.map fmtRow
         totalDebit := totalDebit
         totalTips := totalTips
         totalSales := totalSales
         totalRow := ["TOTAL", fmt2 totalDebit, fmt2 totalTips, fmt2 totalSales] }

/-- The written combined CSV file for several months, with the single
trailing `GRAND TOTAL` row. -/
structure CombinedCsv : Type where
  filename : String
  headerTitle : String
  rows : List Row
  body : List (List String)
  grandTotalDebit : ℚ
  grandTotalTips : ℚ
  grandTotalSales : ℚ
  totalRow : List String
deriving Repr

/-- The collection loop of `export_multiple_months_csv`: extends
`all_data` with each month's rows in the given order and accumulates
the running grand totals. -/
def collectMonths (fetch : Int → Int → HttpResult) (accRows : List Row)
    (accDebit accTips accSales : ℚ) :
    List (Int × Int) → Option (List Row × ℚ × ℚ × ℚ)
  | [] => some (accRows, accDebit, accTips, accSales)
  | (y, m) :: rest => do
      let monthlyData ← generate_monthly_csv_data y m (fetch y m)
      collectMonths fetch (accRows ++ monthlyData)
        (accDebit + (monthlyData.map Row.debit).sum)
        (accTips + (monthlyData.map Row.tip).sum)
        (accSales + (monthlyData.map Row.total).sum) rest

/-- `CloverAPI.export_multiple_months_csv`: concatenates the months'
daily rows in input order (no deduplication), sums the per-month
totals into a grand total, and writes a single `GRAND TOTAL` row. -/
def export_multiple_months_csv (yearMonths : List (Int × Int))
    (fetch : Int → Int → HttpResult) (filename : Option String) :
    Option CombinedCsv := do
  let fname := filename.getD
    ("clover_combined_months_" ++
      String.intercalate "_"
        (yearMonths.map (fun p => toString p.1 ++ "_" ++ pad2 p.2)) ++ ".csv")
  let (allData, grandDebit, grandTips, grandSales) ←
    collectMonths fetch [] 0 0 0 yearMonths
  pure { filename := fname
         headerTitle := "Sales for the months of " ++
           String.intercalate ", "
             (yearMonths.map (fun p => month_name p.2 ++ " " ++ toString p.1))
         rows := allData
         body := allData.map fmtRow
         grandTotalDebit := grandDebit
         grandTotalTips := grandTips
         grandTotalSales := grandSales
         totalRow := ["GRAND TOTAL", fmt2 grandDebit, fmt2 grandTips, fmt2 grandSales] }

/-! ## Configuration and CLI (`load_config_from_env`,
`load_config_from_file`, `main`) -/

/-- The production API host, the default base URL everywhere. -/
def prodBaseUrl : String := "https://api.clover.com"

/-- Python truthiness of an optional string (`None` and `''` are
falsy). -/
def pyTruthy : Option String → Bool
  | none => false
  | some s => decide (s ≠ "")

/-- The resolved credential triple. -/
structure Creds : Type where
  accessToken : Option String
  merchantId : Option String
  baseUrl : String
deriving Repr, DecidableEq

/-- The process environment: the three `CLOVER_*` variables
(`os.getenv` gives `None` when unset). -/
structure EnvVars : Type where
  cloverAccessToken : Option String
  cloverMerchantId : Option String
  cloverBaseUrl : Option String

/-- A `config.py` module: each attribute may be absent (`getattr`
default applies). -/
structure ConfigModule : Type where
  cloverAccessToken : Option String
  cloverMerchantId : Option String
  cloverBaseUrl : Option String

/-- `load_config_from_env`: the environment variables, with the base
URL defaulting to the production host. -/
def load_config_from_env (env : EnvVars) : Creds :=
  { accessToken := env.cloverAccessToken
    merchantId := env.cloverMerchantId
    baseUrl := env.cloverBaseUrl.getD prodBaseUrl }

/-- `load_config_from_file`: attributes of `config.py` with `''`
defaults (and all-empty credentials when the module is missing); base
URL defaults to the production host. -/
def load_config_from_file (cfg : Option ConfigModule) : Creds :=
  match cfg with
  | some c =>
      { accessToken := some (c.cloverAccessToken.getD "")
        merchantId := some (c.cloverMerchantId.getD "")
        baseUrl := c.cloverBaseUrl.getD prodBaseUrl }
  | none =>
      { accessToken := some ""
        merchantId := some ""
        baseUrl := prodBaseUrl }

/-- The parsed command line of `main`. -/
structure Args : Type where
  year : Int
  month : String
  token : Option String
  merchant : Option String
  output : Option String
  env : Bool

/-- The credential-selection branch of `main` (lines 452–467): `--env`
selects the environment variables; otherwise `--token` and
`--merchant` together select the flags (with the production base
URL); otherwise the `config.py` module is loaded. -/
def resolveCreds (args : Args) (env : EnvVars) (cfg : Option ConfigModule) : Creds :=
  if args.env then
    load_config_from_env env
  else if pyTruthy args.token && pyTruthy args.merchant then
    { accessToken := args.token, merchantId := args.merchant, baseUrl := prodBaseUrl }
  else
    load_config_from_file cfg

/-- Modelled from the spec: credentials resolved in the spec's stated
precedence order — the command-line flags first, then the environment
variables, then the configuration module — with the base URL
defaulting to the production host. -/
def resolveCredsSpec (args : Args) (env : EnvVars) (cfg : Option ConfigModule) : Creds :=
  if pyTruthy args.token && pyTruthy args.merchant then
    { accessToken := args.token, merchantId := args.merchant, baseUrl := prodBaseUrl }
  else if pyTruthy env.cloverAccessToken && pyTruthy env.cloverMerchantId then
    load_config_from_env env
  else
    load_config_from_file cfg

/-- The digit scan of Python's `int(...)`: decimal digits with single
underscores allowed between digits; any other character, a leading,
trailing or doubled underscore is a `ValueError` (`none`).  The `Bool`
argument records whether the previous character was an underscore. -/
def pyIntDigits : Nat → Bool → List Char → Option Nat
  | acc, prevUnd, [] => if prevUnd then none else some acc
  | acc, prevUnd, c :: cs =>
      if c = '_' then
        if prevUnd then none else pyIntDigits acc true cs
      else if c.isDigit then
        pyIntDigits (acc * 10 + (c.toNat - 48)) false cs
      else none

/-- The unsigned part of Python's `int(...)`: must start with a
digit. -/
def pyIntCore (l : List Char) : Option Nat :=
  match l with
  | [] => none
  | c :: _ => if c.isDigit then pyIntDigits 0 false l else none

/-- `str.strip()`: drop surrounding whitespace. -/
def pyStrip (l : List Char) : List Char :=
  ((l.dropWhile Char.isWhitespace).reverse.dropWhile Char.isWhitespace).reverse

/-- Python's `int(s)` on a decimal string: surrounding whitespace
stripped, an optional sign, then digits; `none` models the
`ValueError` on any other input. -/
def pyInt? (s : String) : Option Int :=
  match pyStrip s.data with
  | '+' :: rest => (pyIntCore rest).map (fun n => (n : Int))
  | '-' :: rest => (pyIntCore rest).map (fun n => -(n : Int))
  | l => (pyIntCore l).map (fun n => (n : Int))

/-- `s.split(',')`. -/
def pySplitAux (cur : List Char) : List Char → List (List Char)
  | [] => [cur.reverse]
  | c :: cs => if c = ',' then cur.reverse :: pySplitAux [] cs else pySplitAux (c :: cur) cs

/-- `s.split(',')` on a string. -/
def pySplit (s : String) : List String :=
  (pySplitAux [] s.data).map (fun l => String.mk l)

/-- The error message of the `except ValueError` branch of `main`. -/
def invalidFormatMsg : String :=
  "Error: Invalid month format. Use single month (e.g., 6) or comma-separated (e.g., 1,2,3)"

/-- The month parsing and validation of `main` (lines 427–449): a
comma means a list of months (each `int(m.strip())`, all checked
against 1..12 by the validation loop), otherwise a single month with
its own range check; a `ValueError` or out-of-range month yields the
printed error (`Except.error`) and `main` returns at once. -/
def parseMonths (year : Int) (monthArg : String) : Except String (List (Int × Int)) :=
  if monthArg.data.any (fun c => c = ',') then
    match (pySplit monthArg).mapM pyInt? with
    | none => .error invalidFormatMsg
    | some months =>
        let yearMonths := months.map (fun m => (year, m))
        match yearMonths.find? (fun p => !(1 ≤ p.2 && p.2 ≤ 12)) with
        | some p => .error ("Error: Month " ++ toString p.2 ++ " must be between 1 and 12")
        | none => .ok yearMonths
  else
    match pyInt? monthArg with
    | none => .error invalidFormatMsg
    | some m =>
        if !(1 ≤ m && m ≤ 12) then .error "Error: Month must be between 1 and 12"
        else .ok [(year, m)]

/-- The observable outcome of one run of `main`: the month-validation
errors and the missing-credential message happen before any fetch or
export; otherwise the single-month or multi-month exports run (an
`Option` failure models the top-level `except` around the export). -/
inductive MainResult : Type where
  | monthError : String → MainResult
  | credsMissing : MainResult
  | ranSingle : Option MonthlyCsv → MainResult
  | ranMulti : List (Option MonthlyCsv) → Option CombinedCsv → MainResult

/-- `main` (lines 403–520), parametrised by the parsed arguments, the
process environment, the optional `config.py` module and the HTTP
transport: month validation, credential resolution with the
missing-credential guard, then the single- or multi-month export. -/
def main (args : Args) (env : EnvVars) (cfg : Option ConfigModule)
    (fetch : Int → Int → HttpResult) : MainResult :=
  match parseMonths args.year args.month with
  | .error msg => .monthError msg
  | .ok yearMonths =>
      let creds := resolveCreds args env cfg
      if !(pyTruthy creds.accessToken) || !(pyTruthy creds.merchantId) then
        .credsMissing
      else
        match yearMonths with
        | [(y, m)] => .ranSingle (export_monthly_csv y m (fetch y m) args.output)
        | _ =>
            .ranMulti
              (yearMonths.map (fun p =>
                export_monthly_csv p.1 p.2 (fetch p.1 p.2)
                  (some ("clover_monthly_data_" ++ toString p.1 ++ "_" ++ pad2 p.2 ++ ".csv"))))
              (export_multiple_months_csv yearMonths fetch args.output)

/-- Modelled from the spec: the month-window filter the spec claims
for `get_closeouts_by_month` — `createdTime` within the closed
interval from `year-month-01T00:00:00` to the last day of the month at
`T23:59:59` (one second before the first instant of the following
month, which for December lies in January of `year + 1`), in local
time at epoch-millisecond resolution. -/
def monthWindowSpec (year month : Int) (t : ℚ) : Bool :=
  let startMs : Int := daysFromCivil year month 1 * 86400000
  let nextStart : Int :=
    if month = 12 then daysFromCivil (year + 1) 1 1 else daysFromCivil year (month + 1) 1
  let endMs : Int := nextStart * 86400000 - 1000
  decide ((startMs : ℚ) ≤ t) && decide (t ≤ (endMs : ℚ))

/-! ## Derived notions used by the statements -/

/-- The exact column totals of the per-batch summaries sharing the
date `d` (the content of one daily aggregate row). -/
def dayTotals (ss : List Row) (d : String) : Row :=
  { date := d
    debit := ((ss.filter (fun r => r.date = d)).map Row.debit).sum
    tip := ((ss.filter (fun r => r.date = d)).map Row.tip).sum
    total := ((ss.filter (fun r => r.date = d)).map Row.total).sum }

/-- One day's sums added on top of an existing accumulator entry
(the shape of a `daily_data` entry after further upserts). -/
def addSums (ss : List Row) (d : String) (v : Row) : Row :=
  { date := v.date
    debit := v.debit + ((ss.filter (fun r => r.date = d)).map Row.debit).sum
    tip := v.tip + ((ss.filter (fun r => r.date = d)).map Row.tip).sum
    total := v.total + ((ss.filter (fun r => r.date = d)).map Row.total).sum }

/-! ## Concrete instances used by witnesses and counterexamples -/

/-- A batch of 2024-12-31 23:59:59.500 local time with `sales.total`
10000 and `tips.total` 1500 over one tip. -/
def sampleBatch : Json :=
  .obj [("createdTime", .num 1735689599500),
        ("batchDetails", .obj [("batchTotals",
          .obj [("sales", .obj [("total", .num 10000)]),
                ("tips", .obj [("count", .num 1), ("total", .num 1500)])])])]

/-- A successful API response whose `elements` hold `sampleBatch`. -/
def sampleHttp : HttpResult :=
  .ok 200 "" (.obj [("elements", .arr [sampleBatch])])

/-- A successful API response with an empty `elements` list. -/
def emptyHttp : HttpResult :=
  .ok 200 "" (.obj [("elements", .arr [])])

/-- A batch created in the final second of December 2024
(`2024-12-31T23:59:59.500` local time, epoch-ms `1735689599500`). -/
def dec31Batch : Json := .obj [("createdTime", .num 1735689599500)]

/-- A successful response holding only `dec31Batch`. -/
def dec31Http : HttpResult :=
  .ok 200 "" (.obj [("elements", .arr [dec31Batch])])

/-- A batch created one second before the epoch
(`1969-12-31T23:59:59` local time, epoch-ms `-1000`). -/
def preEpochBatch : Json := .obj [("createdTime", .num (-1000))]

/-- A successful response holding only `preEpochBatch`. -/
def preEpochHttp : HttpResult :=
  .ok 200 "" (.obj [("elements", .arr [preEpochBatch])])

/-- A command line passing `--env` together with `--token` and
`--merchant`. -/
def c8Args : Args :=
  { year := 2025, month := "6", token := some "cli-token",
    merchant := some "cli-merchant", output := none, env := true }

/-- An environment carrying its own credentials. -/
def c8Env : EnvVars :=
  { cloverAccessToken := some "env-token",
    cloverMerchantId := some "env-merchant", cloverBaseUrl := none }

/-- An environment with no `CLOVER_*` variables set. -/
def emptyEnv : EnvVars :=
  { cloverAccessToken := none, cloverMerchantId := none, cloverBaseUrl := none }

/-- The month pair list used by the multi-month witness. -/
def twoMonths : List (Int × Int) := [(2024, 12), (2025, 1)]

/-- A transport answering every month fetch with `emptyHttp`. -/
def emptyFetch : Int → Int → HttpResult := fun _ _ => emptyHttp

/-- A throwaway `CombinedCsv` used as a `getD` fallback. -/
def emptyCombined : CombinedCsv :=
  { filename := "", headerTitle := "", rows := [], body := [],
    grandTotalDebit := 0, grandTotalTips := 0, grandTotalSales := 0, totalRow := [] }

/-- A command line whose `--month` is the out-of-range "13". -/
def c7Args : Args :=
  { year := 2025, month := "13", token := some "t",
    merchant := some "m", output := none, env := false }

/-! ## Helper lemmas -/

theorem msToDay_eq_floor (t : ℚ) : msToDay t = ⌊t / 86400000⌋ := by
  unfold msToDay
  rw [Int.fdiv_eq_ediv _ (by norm_num)]
  set m := ⌊t⌋ with hm
  set q : Int := m / 86400000 with hq
  have hb1 : q * 86400000 ≤ m := by omega
  have hb2 : m < (q + 1) * 86400000 := by omega
  have hmt : (m : ℚ) ≤ t := Int.floor_le t
  have hmt2 : t < (m : ℚ) + 1 := Int.lt_floor_add_one t
  symm
  rw [Int.floor_eq_iff]
  constructor
  · rw [le_div_iff₀ (by norm_num : (0 : ℚ) < 86400000)]
    calc ((q : ℚ)) * 86400000 ≤ (m : ℚ) := by exact_mod_cast hb1
      _ ≤ t := hmt
  · rw [div_lt_iff₀ (by norm_num : (0 : ℚ) < 86400000)]
    have : (m : ℚ) + 1 ≤ ((q : ℚ) + 1) * 86400000 := by exact_mod_cast hb2
    linarith

theorem batchAmounts_inv (b : Json) (d t s : ℚ) (h : batchAmounts? b = some (d, t, s)) :
    d = s - t := by
  unfold batchAmounts? at h
  split at h
  · split at h
    · rcases hbt : (Json.dictGet _ "batchTotals" (Json.obj [])) with _ | bt <;>
        rw [hbt] at h <;>
        simp only [Option.bind_eq_bind, Option.none_bind, Option.some_bind] at h
      · exact absurd h (by simp)
      split at h
      · rcases hsa : salesAmount? bt with _ | sa <;> rw [hsa] at h <;>
          simp only [Option.none_bind, Option.some_bind] at h
        · exact absurd h (by simp)
        rcases hta : tipAmount? bt with _ | ta <;> rw [hta] at h <;>
          simp only [Option.none_bind, Option.some_bind] at h
        · exact absurd h (by simp)
        simp only [pure, Option.some_inj, Prod.mk.injEq] at h
        obtain ⟨h1, h2, h3⟩ := h
        rw [← h1, ← h2, ← h3]
      · simp only [pure, Option.some_inj, Prod.mk.injEq] at h
        obtain ⟨h1, h2, h3⟩ := h
        rw [← h1, ← h2, ← h3]; norm_num
    · simp only [pure, Option.some_inj, Prod.mk.injEq] at h
      obtain ⟨h1, h2, h3⟩ := h
      rw [← h1, ← h2, ← h3]; norm_num
  · simp only [pure, Option.some_inj, Prod.mk.injEq] at h
    obtain ⟨h1, h2, h3⟩ := h
    rw [← h1, ← h2, ← h3]; norm_num

theorem format_eq (b : Json) (r : Row) (h : _format_single_batch b = some r) :
    ∃ (fs : List (String × Json)) (cd : String) (d t s : ℚ),
      b = .obj fs ∧
      (if (b.getD "createdTime" (.num 0)).truthy
        then ((b.getD "createdTime" (.num 0)).asQ?).map dateOfMs else some "Unknown") = some cd ∧
      batchAmounts? b = some (d, t, s) ∧
      r = { date := cd, debit := d, tip := t, total := s } := by
  unfold _format_single_batch at h
  match b with
  | .obj fs =>
    simp only [Option.bind_eq_bind] at h
    split at h <;> rename_i hc
    · rcases hq : ((Json.getD (.obj fs) "createdTime" (.num 0)).asQ?) with _ | q <;>
        rw [hq] at h
      · simp at h
      rcases hamt : batchAmounts? (.obj fs) with _ | ⟨⟨d, t, s⟩⟩ <;> rw [hamt] at h
      · simp at h
      have h2 : some ({ date := dateOfMs q, debit := d, tip := t, total := s } : Row) = some r := h
      exact ⟨fs, dateOfMs q, d, t, s, rfl, by simp [hc, hq], rfl, (Option.some_inj.mp h2).symm⟩
    · rcases hamt : batchAmounts? (.obj fs) with _ | ⟨⟨d, t, s⟩⟩ <;> rw [hamt] at h
      · simp at h
      have h2 : some ({ date := "Unknown", debit := d, tip := t, total := s } : Row) = some r := h
      exact ⟨fs, "Unknown", d, t, s, rfl, by simp [hc], rfl, (Option.some_inj.mp h2).symm⟩
  | .null => simp at h
  | .num x => simp at h
  | .str x => simp at h
  | .arr x => simp at h

theorem format_inv (b : Json) (r : Row) (h : _format_single_batch b = some r) :
    r.debit + r.tip = r.total := by
  obtain ⟨fs, cd, d, t, s, _, _, hamt, hr⟩ := format_eq b r h
  have := batchAmounts_inv b d t s hamt
  subst hr; simp [this]

theorem format_date (b : Json) (q : ℚ) (r : Row)
    (hq : b.getD "createdTime" (.num 0) = .num q) (hq0 : q ≠ 0)
    (h : _format_single_batch b = some r) : r.date = dateOfMs q := by
  obtain ⟨fs, cd, d, t, s, hb, hcd, _, hr⟩ := format_eq b r h
  rw [hq] at hcd
  simp [Json.truthy, hq0, Json.asQ?] at hcd
  subst hr
  simpa using hcd.symm

theorem dash_mem_dateStr (y m d : Int) : '-' ∈ (dateStr y m d).data := by
  simp [dateStr, String.data_append, List.mem_append]

theorem dateStr_ne_unknown (y m d : Int) : dateStr y m d ≠ "Unknown" := by
  intro h
  have h2 := dash_mem_dateStr y m d
  rw [h] at h2
  simp at h2

theorem lookup_cons (k : String) (v : Row) (rest : List (String × Row)) (d : String) :
    (((k, v) :: rest).lookup d) = if d = k then some v else rest.lookup d := by
  by_cases h : d = k
  · subst h; simp [List.lookup]
  · simp only [List.lookup]
    rw [if_neg h, show (d == k) = false from beq_eq_false_iff_ne.mpr h]

theorem upsert_lookup (acc : List (String × Row)) (r : Row) (d : String) :
    (upsert acc r).lookup d =
      if r.date = d then
        match acc.lookup d with
        | some v => some { date := v.date, debit := v.debit + r.debit,
                           tip := v.tip + r.tip, total := v.total + r.total }
        | none => some { date := r.date, debit := r.debit, tip := r.tip, total := r.total }
      else acc.lookup d := by
  induction acc with
  | nil =>
      by_cases h : r.date = d
      · simp [upsert, lookup_cons, h]
      · simp [upsert, lookup_cons, h, Ne.symm h]
  | cons head tail ih =>
      obtain ⟨k0, w⟩ := head
      by_cases hk : k0 = r.date
      · by_cases hd : d = k0
        · subst hd; subst hk
          simp [upsert, lookup_cons]
        · have hrd : ¬ r.date = d := fun hh => hd (by rw [← hh, hk])
          simp [upsert, hk, lookup_cons, hd, hrd, Ne.symm hrd]
      · by_cases hd : d = k0
        · subst hd
          have hrd : ¬ r.date = d := fun hh => hk (by rw [hh])
          simp [upsert, hk, lookup_cons, hrd]
        · simp [upsert, hk, lookup_cons, hd, ih]

theorem groupDaily_lookup (ss : List Row) (acc : List (String × Row)) (d : String) :
    (groupDaily acc ss).lookup d =
      match acc.lookup d with
      | some v => some (addSums ss d v)
      | none =>
          if (ss.filter (fun r => r.date = d)).isEmpty then none
          else some (dayTotals ss d) := by
  induction ss generalizing acc with
  | nil =>
      cases hl : acc.lookup d <;> simp [groupDaily, hl, addSums]
  | cons r ss ih =>
      show (groupDaily (upsert acc r) ss).lookup d = _
      rw [ih (upsert acc r), upsert_lookup]
      by_cases hrd : r.date = d
      · cases hl : acc.lookup d <;>
          simp [hl, hrd, List.filter_cons, dayTotals, addSums, add_assoc]
      · cases hl : acc.lookup d <;>
          simp [hl, hrd, List.filter_cons, dayTotals, addSums]

theorem generate_eq_some (y m : Int) (http : HttpResult) (ss : List Row)
    (hss : (get_closeouts_by_month y m http).mapM _format_single_batch = some ss) :
    generate_monthly_csv_data y m http
      = some ((List.range (daysInMonth y m)).map
          (fun (i : Nat) => dayTotals ss (dateStr y m ((i : Int) + 1)))) := by
  unfold generate_monthly_csv_data
  dsimp only
  rw [hss]
  simp only [Option.some_bind, Option.bind_eq_bind, pure, Option.some_inj]
  apply List.map_congr_left
  intro i _
  rw [groupDaily_lookup ss [] (dateStr y m ((i : Int) + 1))]
  simp only [List.lookup_nil]
  by_cases he : (ss.filter (fun r => r.date = dateStr y m ((i : Int) + 1))).isEmpty
  · simp [he, dayTotals, List.isEmpty_iff.mp he]
  · simp [he]

theorem generate_some_inv (y m : Int) (http : HttpResult) (rows : List Row)
    (h : generate_monthly_csv_data y m http = some rows) :
    ∃ ss, (get_closeouts_by_month y m http).mapM _format_single_batch = some ss := by
  unfold generate_monthly_csv_data at h
  dsimp only at h
  rcases hss : (get_closeouts_by_month y m http).mapM _format_single_batch with _ | ss
  · rw [hss] at h; simp at h
  · exact ⟨ss, rfl⟩

theorem generate_length (y m : Int) (http : HttpResult) (rows : List Row)
    (h : generate_monthly_csv_data y m http = some rows) :
    rows.length = daysInMonth y m := by
  obtain ⟨ss, hss⟩ := generate_some_inv y m http rows h
  rw [generate_eq_some y m http ss hss] at h
  obtain rfl := (Option.some_inj.mp h).symm
  rw [List.length_map, List.length_range]

theorem mdays_getD_le (n : Nat) : mdays.getD n 0 ≤ 31 := by
  match n with
  | 0 => decide
  | 1 => decide
  | 2 => decide
  | 3 => decide
  | 4 => decide
  | 5 => decide
  | 6 => decide
  | 7 => decide
  | 8 => decide
  | 9 => decide
  | 10 => decide
  | 11 => decide
  | 12 => decide
  | n + 13 => simp [mdays, List.getD]

theorem daysInMonth_le (y m : Int) : daysInMonth y m ≤ 31 := by
  unfold daysInMonth
  by_cases hm : m = 2 ∧ isLeap y
  · obtain ⟨rfl, hl⟩ := hm
    simp [mdays, hl]
  · have h1 := mdays_getD_le m.toNat
    rw [if_neg hm]
    omega

theorem civil_day_bounds (z0 : Int) :
    1 ≤ (civilFromDays z0).2.2 ∧ (civilFromDays z0).2.2 ≤ 31 := by
  unfold civilFromDays
  dsimp only
  rw [Int.fdiv_eq_ediv _ (by norm_num : (0 : ℤ) ≤ 146097),
      Int.fdiv_eq_ediv _ (by norm_num : (0 : ℤ) ≤ 1460),
      Int.fdiv_eq_ediv _ (by norm_num : (0 : ℤ) ≤ 36524),
      Int.fdiv_eq_ediv _ (by norm_num : (0 : ℤ) ≤ 146096),
      Int.fdiv_eq_ediv _ (by norm_num : (0 : ℤ) ≤ 365),
      Int.fdiv_eq_ediv _ (by norm_num : (0 : ℤ) ≤ 153),
      Int.fdiv_eq_ediv _ (by norm_num : (0 : ℤ) ≤ 5)]
  omega

theorem msDay_bounds (t : ℚ) : 1 ≤ msDay t ∧ msDay t ≤ 31 :=
  civil_day_bounds (msToDay t)

theorem pad2_day_inj :
    ∀ a b : Fin 31, pad2 ((a : Nat) + 1 : Int) = pad2 ((b : Nat) + 1 : Int) → a = b := by
  decide

theorem string_data_inj (s t : String) (h : s.data = t.data) : s = t := by
  cases s; cases t; exact congrArg String.mk h

theorem dateStr_day_inj (y m : Int) (a b : Nat) (ha : a < 31) (hb : b < 31)
    (h : dateStr y m ((a : Int) + 1) = dateStr y m ((b : Int) + 1)) : a = b := by
  have h2 := congrArg String.data h
  simp only [dateStr, String.data_append, List.append_assoc] at h2
  have h3 := List.append_cancel_left (List.append_cancel_left
    (List.append_cancel_left (List.append_cancel_left h2)))
  have h4 : pad2 ((a : Int) + 1) = pad2 ((b : Int) + 1) := string_data_inj _ _ h3
  have h5 := pad2_day_inj ⟨a, ha⟩ ⟨b, hb⟩ (by exact_mod_cast h4)
  simpa using congrArg Fin.val h5



theorem filterBatchesM_mem (y m : Int) (l out : List Json)
    (h : filterBatchesM y m l = some out) :
    ∀ b ∈ out, b ∈ l ∧ monthFilter y m b = some true := by
  induction l generalizing out with
  | nil =>
      simp only [filterBatchesM, Option.some_inj] at h
      subst h; simp
  | cons a l ih =>
      simp only [filterBatchesM, Option.bind_eq_bind] at h
      rcases hk : monthFilter y m a with _ | keep <;> rw [hk] at h
      · simp at h
      rcases ht : filterBatchesM y m l with _ | tail <;> rw [ht] at h
      · simp at h
      simp only [Option.some_bind, pure, Option.some_inj] at h
      intro b hb
      rw [← h] at hb
      cases keep with
      | false =>
          simp only [Bool.false_eq_true, if_false] at hb
          obtain ⟨hbl, hf⟩ := ih tail ht b hb
          exact ⟨List.mem_cons_of_mem a hbl, hf⟩
      | true =>
          simp only [if_true] at hb
          rcases List.mem_cons.mp hb with rfl | hb2
          · exact ⟨List.mem_cons_self _ _, hk⟩
          · obtain ⟨hbl, hf⟩ := ih tail ht b hb2
            exact ⟨List.mem_cons_of_mem a hbl, hf⟩

theorem filterBatchesM_eq_filter (y m : Int) (l : List Json)
    (h : ∀ b ∈ l, monthFilter y m b ≠ none) :
    filterBatchesM y m l = some (l.filter (fun b => (monthFilter y m b).getD false)) := by
  induction l with
  | nil => simp [filterBatchesM]
  | cons a l ih =>
      have ha : monthFilter y m a ≠ none := h a (List.mem_cons_self a l)
      rcases hk : monthFilter y m a with _ | keep
      · exact absurd hk ha
      have ih2 := ih (fun b hb => h b (List.mem_cons_of_mem a hb))
      simp only [filterBatchesM, Option.bind_eq_bind, hk, Option.some_bind, ih2,
        List.filter_cons]
      cases keep <;> simp

theorem get_closeouts_mem (y m : Int) (http : HttpResult) (b : Json)
    (h : b ∈ get_closeouts_by_month y m http) : monthFilter y m b = some true := by
  unfold get_closeouts_by_month at h
  rcases hmr : _make_request http with e | response <;> rw [hmr] at h <;> dsimp only at h
  · simp at h
  rcases hel : response.getD "elements" (.arr []) with _ | _ | _ | elems | _ <;>
      rw [hel] at h <;> dsimp only at h <;> try simp at h
  rcases hf : filterBatchesM y m elems with _ | out <;> rw [hf] at h
  · simp at h
  exact (filterBatchesM_mem y m elems out hf b h).2

theorem monthFilter_true (y m : Int) (b : Json) (h : monthFilter y m b = some true) :
    ∃ q : ℚ, b.dictGet "createdTime" (.num 0) = some (.num q) ∧ q ≠ 0
      ∧ msYear q = y ∧ msMonth q = m := by
  unfold monthFilter at h
  rcases hg : b.dictGet "createdTime" (.num 0) with _ | t <;> rw [hg] at h
  · simp at h
  simp only [Option.some_bind, Option.bind_eq_bind] at h
  split at h <;> rename_i htr
  · rcases t with _ | q | _ | _ | _ <;> simp [Json.asQ?] at h
    obtain ⟨h1, h2⟩ := h
    refine ⟨q, rfl, ?_, h1, h2⟩
    simpa [Json.truthy] using htr
  · simp at h



theorem monthFilter_of_facts (y m : Int) (b : Json) (q : ℚ)
    (hg : b.dictGet "createdTime" (.num 0) = some (.num q)) (hq : q ≠ 0) :
    monthFilter y m b = some (decide (msYear q = y) && decide (msMonth q = m)) := by
  unfold monthFilter
  rw [hg]
  simp [Json.truthy, hq, Json.asQ?]

theorem monthFilter_getD_iff (y m : Int) (b : Json) :
    (monthFilter y m b).getD false = true ↔
      ∃ q : ℚ, b.dictGet "createdTime" (.num 0) = some (.num q) ∧ q ≠ 0
        ∧ msYear q = y ∧ msMonth q = m := by
  constructor
  · intro h
    rcases hk : monthFilter y m b with _ | keep
    · rw [hk] at h; simp at h
    rw [hk] at h
    simp only [Option.getD_some] at h
    subst h
    exact monthFilter_true y m b hk
  · rintro ⟨q, hg, hq, hy, hm⟩
    rw [monthFilter_of_facts y m b q hg hq]
    simp [hy, hm]

theorem get_closeouts_error (y m : Int) (http : HttpResult) (e : String)
    (h : _make_request http = .error e) : get_closeouts_by_month y m http = [] := by
  unfold get_closeouts_by_month
  rw [h]

theorem raiseForStatus_false (status : Nat) (h1 : 200 ≤ status) (h2 : status < 300) :
    raiseForStatus status = false := by
  simp [raiseForStatus, h1, h2]

theorem raiseForStatus_true (status : Nat) (h : ¬ (200 ≤ status ∧ status < 300)) :
    raiseForStatus status = true := by
  simp only [raiseForStatus, Bool.not_eq_true', Bool.and_eq_false_iff,
    decide_eq_false_iff_not]
  omega

theorem make_request_ok (status : Nat) (body : String) (j : Json)
    (h1 : 200 ≤ status) (h2 : status < 300) :
    _make_request (.ok status body j) = .ok j := by
  unfold _make_request
  dsimp only
  rw [raiseForStatus_false status h1 h2]
  simp

theorem get_closeouts_ok_eq (y m : Int) (status : Nat) (body : String) (j : Json)
    (elems : List Json) (hs : 200 ≤ status) (hs2 : status < 300)
    (hel : j.getD "elements" (.arr []) = .arr elems)
    (hwf : ∀ b ∈ elems, monthFilter y m b ≠ none) :
    get_closeouts_by_month y m (.ok status body j)
      = elems.filter (fun b => (monthFilter y m b).getD false) := by
  unfold get_closeouts_by_month
  rw [make_request_ok status body j hs hs2]
  dsimp only
  rw [hel]
  dsimp only
  rw [filterBatchesM_eq_filter y m elems hwf]



theorem dictGet_some_getD (b : Json) (k : String) (d v : Json)
    (h : b.dictGet k d = some v) : b.getD k d = v := by
  cases b <;> simp [Json.dictGet] at h <;> simp [Json.getD, Json.get?, h]

/-- Claim C3, counterexample: a batch created at 2024-12-31
23:59:59.500 local time is returned by `get_closeouts_by_month` for
December 2024, yet its timestamp lies outside the claimed closed
window ending at 23:59:59 — so the fetch does not return exactly the
batches of that interval. -/
theorem claim_C3_counterexample :
    get_closeouts_by_month 2024 12 dec31Http = [dec31Batch]
    ∧ monthWindowSpec 2024 12 1735689599500 = false
    ∧ dec31Batch.getD "createdTime" (.num 0) = .num 1735689599500 :=
  ⟨rfl, rfl, rfl⟩

/-- Claim C3, amended: on a successful (2xx) response,
`get_closeouts_by_month` returns exactly the batches of the `elements`
page whose `createdTime` is a nonzero timestamp whose local calendar
date has the requested year and month (the half-open month window at
millisecond precision); in particular every returned batch has the
requested local year, so for December none belongs to `year + 1`. -/
theorem claim_C3_amended (year month : Int) (status : Nat) (body : String) (j : Json)
    (elems : List Json) (hmonth : 1 ≤ month ∧ month ≤ 12)
    (hs : 200 ≤ status) (hs2 : status < 300)
    (hel : j.getD "elements" (.arr []) = .arr elems)
    (hwf : ∀ b ∈ elems, monthFilter year month b ≠ none) :
    get_closeouts_by_month year month (.ok status body j)
      = elems.filter (fun b => (monthFilter year month b).getD false)
    ∧ (∀ b ∈ elems, ((monthFilter year month b).getD false = true ↔
        ∃ q : ℚ, b.dictGet "createdTime" (.num 0) = some (.num q) ∧ q ≠ 0
          ∧ msYear q = year ∧ msMonth q = month))
    ∧ (∀ b ∈ get_closeouts_by_month year month (.ok status body j),
        ∃ q : ℚ, b.dictGet "createdTime" (.num 0) = some (.num q)
          ∧ msYear q = year ∧ msYear q ≠ year + 1) := by
  refine ⟨get_closeouts_ok_eq year month status body j elems hs hs2 hel hwf,
    fun b _ => monthFilter_getD_iff year month b, ?_⟩
  intro b hb
  obtain ⟨q, hg, hq, hy, hm⟩ :=
    monthFilter_true year month b (get_closeouts_mem year month _ b hb)
  exact ⟨q, hg, hy, by omega⟩

theorem claim_C3_witness :
    get_closeouts_by_month 2024 12 (.ok 200 "" (.obj [("elements", .arr [dec31Batch])]))
      = [dec31Batch].filter (fun b => (monthFilter 2024 12 b).getD false) :=
  (claim_C3_amended 2024 12 200 "" (.obj [("elements", .arr [dec31Batch])]) [dec31Batch]
    (by norm_num) (by norm_num) (by norm_num) rfl
    (by
      intro b hb
      rw [List.mem_singleton] at hb
      subst hb
      rw [show monthFilter 2024 12 dec31Batch = some true from rfl]
      simp)).1

/-- Claim C6: `_make_request` raises on any non-2xx status with the
response body surfaced in the failure output and on any network
error, and returns the parsed JSON on 2xx; `get_closeouts_by_month`
catches every such failure and returns `[]`, the same value an empty
month produces. -/
theorem claim_C6 :
    (∀ (status : Nat) (body : String) (j : Json), ¬ (200 ≤ status ∧ status < 300) →
      ∃ pre : String, _make_request (.ok status body j) = .error (pre ++ body)) ∧
    (∀ msg : String, _make_request (.netError msg) = .error ("API request failed: " ++ msg)) ∧
    (∀ (status : Nat) (body : String) (j : Json), 200 ≤ status → status < 300 →
      _make_request (.ok status body j) = .ok j) ∧
    (∀ (year month : Int) (http : HttpResult) (e : String),
      _make_request http = .error e → get_closeouts_by_month year month http = []) ∧
    (∀ year month : Int, get_closeouts_by_month year month emptyHttp = []) := by
  refine ⟨?_, fun msg => rfl, make_request_ok, get_closeouts_error, fun y m => rfl⟩
  intro status body j h
  refine ⟨"API request failed: HTTP " ++ toString status ++ "; Response content: ", ?_⟩
  unfold _make_request
  dsimp only
  rw [raiseForStatus_true status h]
  simp [failureMessage]

theorem claim_C6_witness :
    (∃ pre : String, _make_request (.ok 404 "not found" (.obj [])) = .error (pre ++ "not found"))
    ∧ _make_request (.ok 204 "" (.obj [])) = .ok (.obj [])
    ∧ get_closeouts_by_month 2024 12 (.netError "connection refused") = [] := by
  refine ⟨claim_C6.1 404 "not found" (.obj []) (by omega), ?_, ?_⟩
  · exact claim_C6.2.2.1 204 "" (.obj []) (by omega) (by omega)
  · exact claim_C6.2.2.2.1 2024 12 (.netError "connection refused")
      ("API request failed: " ++ "connection refused") (claim_C6.2.1 "connection refused")

/-- Claim C10, counterexample: for the December 1969 fetch, a batch
with `createdTime = -1000` (one second before the epoch) passes the
filter and reaches aggregation although its `createdTime` is not
positive — the claim's `createdTime > 0` fails. -/
theorem claim_C10_counterexample :
    get_closeouts_by_month 1969 12 preEpochHttp = [preEpochBatch]
    ∧ preEpochBatch.getD "createdTime" (.num 0) = .num (-1000)
    ∧ ¬ ((0 : ℚ) < -1000) :=
  ⟨rfl, rfl, by norm_num⟩

/-- Claim C10, amended: every batch returned by
`get_closeouts_by_month` has a nonzero (not necessarily positive)
numeric `createdTime` whose local date has the requested year and
month with a day in 1..31, its summary date is the well-formed
`year-month-day` string of that timestamp, and the `"Unknown"` branch
of `_format_single_batch` is never reached from the monthly
pipeline. -/
theorem claim_C10_amended (year month : Int) (http : HttpResult) (b : Json)
    (hmonth : 1 ≤ month ∧ month ≤ 12)
    (hb : b ∈ get_closeouts_by_month year month http) :
    ∃ q : ℚ, b.dictGet "createdTime" (.num 0) = some (.num q) ∧ q ≠ 0
      ∧ msYear q = year ∧ msMonth q = month
      ∧ 1 ≤ msDay q ∧ msDay q ≤ 31
      ∧ ∀ r : Row, _format_single_batch b = some r →
          r.date = dateStr year month (msDay q) ∧ r.date ≠ "Unknown" := by
  obtain ⟨q, hg, hq, hy, hm⟩ :=
    monthFilter_true year month b (get_closeouts_mem year month http b hb)
  refine ⟨q, hg, hq, hy, hm, (msDay_bounds q).1, (msDay_bounds q).2, ?_⟩
  intro r hr
  have hgd := dictGet_some_getD b "createdTime" (.num 0) (.num q) hg
  have hdate := format_date b q r hgd hq hr
  rw [hdate]
  unfold dateOfMs
  rw [hy, hm]
  exact ⟨rfl, dateStr_ne_unknown year month (msDay q)⟩

theorem claim_C10_witness :
    ∃ q : ℚ, dec31Batch.dictGet "createdTime" (.num 0) = some (.num q) ∧ q ≠ 0
      ∧ msYear q = 2024 ∧ msMonth q = 12
      ∧ 1 ≤ msDay q ∧ msDay q ≤ 31
      ∧ ∀ r : Row, _format_single_batch dec31Batch = some r →
          r.date = dateStr 2024 12 (msDay q) ∧ r.date ≠ "Unknown" :=
  claim_C10_amended 2024 12 dec31Http dec31Batch (by norm_num)
    (by rw [show get_closeouts_by_month 2024 12 dec31Http = [dec31Batch] from rfl]; simp)



/-- Claim C1: `_format_single_batch` is pure and total on batch
objects: `total = sales.total / 100`, `tip = tips.total / 100` when
`tips.count > 0` and `0` otherwise, `debit = total - tip`; a missing
or falsy `batchDetails` / `batchTotals` / `sales` / `tips` level
yields zero for the affected amounts and never an error; `sales.total
= 10000` with `tips.total = 1500` (count > 0) gives
`{total := 100, tip := 15, debit := 85}`, and a batch without
`batchDetails` gives all zeros. -/
theorem claim_C1 (ct st tt tc : ℚ) (hct : ct ≠ 0) :
    (_format_single_batch (.obj [("createdTime", .num ct),
        ("batchDetails", .obj [("batchTotals", .obj [
          ("sales", .obj [("total", .num st)]),
          ("tips", .obj [("count", .num tc), ("total", .num tt)])])])])
      = some { date := dateOfMs ct,
               debit := st / 100 - (if 0 < tc then tt / 100 else 0),
               tip := if 0 < tc then tt / 100 else 0,
               total := st / 100 })
    ∧ (_format_single_batch (.obj [("createdTime", .num ct)])
        = some { date := dateOfMs ct, debit := 0, tip := 0, total := 0 })
    ∧ (_format_single_batch (.obj [("createdTime", .num ct), ("batchDetails", .null)])
        = some { date := dateOfMs ct, debit := 0, tip := 0, total := 0 })
    ∧ (_format_single_batch (.obj [("createdTime", .num ct),
        ("batchDetails", .obj [("batchTotals", .obj [])])])
        = some { date := dateOfMs ct, debit := 0, tip := 0, total := 0 })
    ∧ (_format_single_batch (.obj [("createdTime", .num ct),
        ("batchDetails", .obj [("batchTotals",
          .obj [("sales", .obj []), ("tips", .obj [])])])])
        = some { date := dateOfMs ct, debit := 0, tip := 0, total := 0 })
    ∧ (_format_single_batch (.obj [("createdTime", .num ct),
        ("batchDetails", .obj [("other", .num 1)])])
        = some { date := dateOfMs ct, debit := 0, tip := 0, total := 0 })
    ∧ (_format_single_batch (.obj [("createdTime", .num ct),
        ("batchDetails", .obj [("batchTotals",
          .obj [("tips", .obj [("count", .num tc), ("total", .num tt)])])])])
        = some { date := dateOfMs ct,
                 debit := 0 - (if 0 < tc then tt / 100 else 0),
                 tip := if 0 < tc then tt / 100 else 0, total := 0 })
    ∧ (_format_single_batch (.obj [("createdTime", .num ct),
        ("batchDetails", .obj [("batchTotals",
          .obj [("sales", .obj [("total", .num st)])])])])
        = some { date := dateOfMs ct, debit := st / 100 - 0, tip := 0, total := st / 100 })
    ∧ _format_single_batch sampleBatch
        = some { date := "2024-12-31", debit := 85, tip := 15, total := 100 }
    ∧ _format_single_batch (.obj [("createdTime", .num 1735689599500)])
        = some { date := "2024-12-31", debit := 0, tip := 0, total := 0 } := by
  refine ⟨?_, ?_, ?_, ?_, ?_, ?_, ?_, ?_, ?_, ?_⟩
  · by_cases htc : 0 < tc <;>
      simp [_format_single_batch, batchAmounts?, salesAmount?, tipAmount?,
        Json.getD, Json.get?, Json.dictGet, Json.truthy, Json.asQ?, List.lookup, hct, htc, pure]
  · simp [_format_single_batch, batchAmounts?,
      Json.getD, Json.get?, Json.dictGet, Json.truthy, Json.asQ?, List.lookup, hct, pure]
  · simp [_format_single_batch, batchAmounts?,
      Json.getD, Json.get?, Json.dictGet, Json.truthy, Json.asQ?, List.lookup, hct, pure]
  · simp [_format_single_batch, batchAmounts?,
      Json.getD, Json.get?, Json.dictGet, Json.truthy, Json.asQ?, List.lookup, hct, pure]
  · simp [_format_single_batch, batchAmounts?, salesAmount?, tipAmount?,
      Json.getD, Json.get?, Json.dictGet, Json.truthy, Json.asQ?, List.lookup, hct, pure]
  · simp [_format_single_batch, batchAmounts?, salesAmount?, tipAmount?,
      Json.getD, Json.get?, Json.dictGet, Json.truthy, Json.asQ?, List.lookup, hct, pure]
  · by_cases htc : 0 < tc <;>
      simp [_format_single_batch, batchAmounts?, salesAmount?, tipAmount?,
        Json.getD, Json.get?, Json.dictGet, Json.truthy, Json.asQ?, List.lookup, hct, htc, pure]
  · simp [_format_single_batch, batchAmounts?, salesAmount?, tipAmount?,
      Json.getD, Json.get?, Json.dictGet, Json.truthy, Json.asQ?, List.lookup, hct, pure]
  · have hrfl : _format_single_batch sampleBatch
        = some { date := "2024-12-31", debit := (10000 : ℚ) / 100 - 1500 / 100,
                 tip := (1500 : ℚ) / 100, total := (10000 : ℚ) / 100 } := rfl
    rw [hrfl]
    simp only [Option.some_inj, Row.mk.injEq]
    norm_num
  · exact rfl

theorem claim_C1_witness :
    _format_single_batch (.obj [("createdTime", .num 1735689599500), ("batchDetails", .null)])
      = some { date := dateOfMs 1735689599500, debit := 0, tip := 0, total := 0 } :=
  (claim_C1 1735689599500 0 0 0 (by norm_num)).2.2.1

/-- Claim C2: `generate_monthly_csv_data` returns exactly
`daysInMonth year month` rows; the row at index `i` is the aggregate
for calendar day `i + 1` (so the dates ascend day by day with no gaps
and, as proved by the distinctness clause, no duplicates); a day with
no batches is the all-zero row and a day with batches carries the
component-wise sum of its per-batch summaries. -/
theorem claim_C2 (year month : Int) (http : HttpResult) (rows ss : List Row)
    (hmonth : 1 ≤ month ∧ month ≤ 12)
    (hgen : generate_monthly_csv_data year month http = some rows)
    (hss : (get_closeouts_by_month year month http).mapM _format_single_batch = some ss) :
    rows.length = daysInMonth year month
    ∧ (∀ (i : Nat) (h : i < rows.length),
        rows.get ⟨i, h⟩ = dayTotals ss (dateStr year month ((i : Int) + 1)))
    ∧ (∀ (i : Nat) (h : i < rows.length),
        (∀ r ∈ ss, r.date ≠ dateStr year month ((i : Int) + 1)) →
        rows.get ⟨i, h⟩ = { date := dateStr year month ((i : Int) + 1),
                            debit := 0, tip := 0, total := 0 })
    ∧ (∀ (i j : Nat) (hi : i < rows.length) (hj : j < rows.length),
        i ≠ j → (rows.get ⟨i, hi⟩).date ≠ (rows.get ⟨j, hj⟩).date) := by
  rw [generate_eq_some year month http ss hss] at hgen
  obtain rfl := (Option.some_inj.mp hgen).symm
  have hlen : ((List.range (daysInMonth year month)).map
      (fun (i : Nat) => dayTotals ss (dateStr year month ((i : Int) + 1)))).length
      = daysInMonth year month := by simp
  have hget : ∀ (i : Nat) (h : i < ((List.range (daysInMonth year month)).map
      (fun (i : Nat) => dayTotals ss (dateStr year month ((i : Int) + 1)))).length),
      ((List.range (daysInMonth year month)).map
        (fun (i : Nat) => dayTotals ss (dateStr year month ((i : Int) + 1)))).get ⟨i, h⟩
      = dayTotals ss (dateStr year month ((i : Int) + 1)) := by
    intro i h
    simp [List.get_eq_getElem, List.getElem_map, List.getElem_range]
  refine ⟨hlen, hget, ?_, ?_⟩
  · intro i h hnone
    rw [hget i h]
    have hfil : ss.filter (fun r => r.date = dateStr year month ((i : Int) + 1)) = [] :=
      List.filter_eq_nil_iff.mpr (by intro r hr; simpa using hnone r hr)
    simp [dayTotals, hfil]
  · intro i j hi hj hne
    rw [hget i hi, hget j hj]
    simp only [dayTotals]
    intro hcontra
    exact hne (dateStr_day_inj year month i j
      (lt_of_lt_of_le (hlen ▸ hi) (daysInMonth_le year month))
      (lt_of_lt_of_le (hlen ▸ hj) (daysInMonth_le year month)) hcontra)

theorem claim_C2_witness :
    ((generate_monthly_csv_data 2024 12 sampleHttp).getD []).length = daysInMonth 2024 12 :=
  (claim_C2 2024 12 sampleHttp ((generate_monthly_csv_data 2024 12 sampleHttp).getD [])
    (((get_closeouts_by_month 2024 12 sampleHttp).mapM _format_single_batch).getD [])
    (by norm_num) rfl rfl).1

theorem export_monthly_eq (year month : Int) (http : HttpResult) (fn : Option String)
    (rows : List Row) (hg : generate_monthly_csv_data year month http = some rows) :
    export_monthly_csv year month http fn = some
      { filename := fn.getD
          ("clover_monthly_data_" ++ toString year ++ "_" ++ pad2 month ++ ".csv")
        headerTitle := "Sales for the month of " ++ month_name month ++ " " ++ toString year
        rows := rows
        body := rows.map fmtRow
        totalDebit := (rows.map Row.debit).sum
        totalTips := (rows.map Row.tip).sum
        totalSales := (rows.map Row.total).sum
        totalRow := ["TOTAL", fmt2 ((rows.map Row.debit).sum), fmt2 ((rows.map Row.tip).sum),
                     fmt2 ((rows.map Row.total).sum)] } := by
  unfold export_monthly_csv
  dsimp only
  rw [hg]
  rfl

/-- Claim C4: the trailing `TOTAL` row written by
`export_monthly_csv` carries exactly the column-wise sums of the
debit, tip and total fields over all daily rows of the month (exact
rational arithmetic; the two-decimal rendering is applied to these
exact sums). -/
theorem claim_C4 (year month : Int) (http : HttpResult) (fn : Option String) (e : MonthlyCsv)
    (h : export_monthly_csv year month http fn = some e) :
    e.totalDebit = (e.rows.map Row.debit).sum
    ∧ e.totalTips = (e.rows.map Row.tip).sum
    ∧ e.totalSales = (e.rows.map Row.total).sum
    ∧ e.totalRow = ["TOTAL", fmt2 e.totalDebit, fmt2 e.totalTips, fmt2 e.totalSales] := by
  rcases hg : generate_monthly_csv_data year month http with _ | rows
  · unfold export_monthly_csv at h
    dsimp only at h
    rw [hg] at h
    simp at h
  · rw [export_monthly_eq year month http fn rows hg] at h
    obtain rfl := (Option.some_inj.mp h).symm
    exact ⟨rfl, rfl, rfl, rfl⟩

theorem claim_C4_witness :
    ((export_monthly_csv 2024 12 emptyHttp (some "out.csv")).getD
        { filename := "", headerTitle := "", rows := [], body := [],
          totalDebit := 0, totalTips := 0, totalSales := 0, totalRow := [] }).totalRow
      = ["TOTAL",
          fmt2 ((((export_monthly_csv 2024 12 emptyHttp (some "out.csv")).getD
            { filename := "", headerTitle := "", rows := [], body := [],
              totalDebit := 0, totalTips := 0, totalSales := 0, totalRow := [] }).rows.map
                Row.debit).sum),
          fmt2 ((((export_monthly_csv 2024 12 emptyHttp (some "out.csv")).getD
            { filename := "", headerTitle := "", rows := [], body := [],
              totalDebit := 0, totalTips := 0, totalSales := 0, totalRow := [] }).rows.map
                Row.tip).sum),
          fmt2 ((((export_monthly_csv 2024 12 emptyHttp (some "out.csv")).getD
            { filename := "", headerTitle := "", rows := [], body := [],
              totalDebit := 0, totalTips := 0, totalSales := 0, totalRow := [] }).rows.map
                Row.total).sum)] := by
  have h := claim_C4 2024 12 emptyHttp (some "out.csv")
    ((export_monthly_csv 2024 12 emptyHttp (some "out.csv")).getD
      { filename := "", headerTitle := "", rows := [], body := [],
        totalDebit := 0, totalTips := 0, totalSales := 0, totalRow := [] }) rfl
  rw [h.2.2.2, h.1, h.2.1, h.2.2.1]

end Clover

namespace Clover

theorem collectMonths_eq (fetch : Int → Int → HttpResult) :
    ∀ (yms : List (Int × Int)) (ms : List (List Row)) (acc : List Row) (aD aT aS : ℚ),
    yms.mapM (fun p => generate_monthly_csv_data p.1 p.2 (fetch p.1 p.2)) = some ms →
    collectMonths fetch acc aD aT aS yms
      = some (acc ++ ms.flatten,
          aD + (ms.map (fun l => (l.map Row.debit).sum)).sum,
          aT + (ms.map (fun l => (l.map Row.tip).sum)).sum,
          aS + (ms.map (fun l => (l.map Row.total).sum)).sum) := by
  intro yms
  induction yms with
  | nil =>
      intro ms acc aD aT aS h
      simp only [List.mapM_nil, pure, Option.some_inj] at h
      subst h
      simp [collectMonths]
  | cons p yms ih =>
      intro ms acc aD aT aS h
      obtain ⟨y, m⟩ := p
      rw [List.mapM_cons] at h
      rcases hg : generate_monthly_csv_data y m (fetch y m) with _ | l <;> rw [hg] at h
      · simp at h
      rcases hr : yms.mapM (fun p => generate_monthly_csv_data p.1 p.2 (fetch p.1 p.2))
          with _ | ms' <;> rw [hr] at h
      · simp at h
      simp only [Option.bind_eq_bind, Option.some_bind, pure, Option.some_inj] at h
      subst h
      show (do
        let monthlyData ← generate_monthly_csv_data y m (fetch y m)
        collectMonths fetch (acc ++ monthlyData)
          (aD + (monthlyData.map Row.debit).sum)
          (aT + (monthlyData.map Row.tip).sum)
          (aS + (monthlyData.map Row.total).sum) yms) = _
      rw [hg]
      show collectMonths fetch (acc ++ l)
        (aD + (l.map Row.debit).sum) (aT + (l.map Row.tip).sum)
        (aS + (l.map Row.total).sum) yms = _
      rw [ih ms' (acc ++ l) _ _ _ hr]
      simp only [List.flatten_cons, List.map_cons, List.sum_cons, List.append_assoc, add_assoc]

end Clover

namespace Clover

theorem mapM_generate_lengths (fetch : Int → Int → HttpResult) :
    ∀ (yms : List (Int × Int)) (ms : List (List Row)),
    yms.mapM (fun p => generate_monthly_csv_data p.1 p.2 (fetch p.1 p.2)) = some ms →
    ms.map List.length = yms.map (fun p => daysInMonth p.1 p.2) := by
  intro yms
  induction yms with
  | nil =>
      intro ms h
      simp only [List.mapM_nil, pure, Option.some_inj] at h
      subst h; rfl
  | cons p yms ih =>
      intro ms h
      rw [List.mapM_cons] at h
      rcases hg : generate_monthly_csv_data p.1 p.2 (fetch p.1 p.2) with _ | l <;> rw [hg] at h
      · simp at h
      rcases hr : yms.mapM (fun p => generate_monthly_csv_data p.1 p.2 (fetch p.1 p.2))
          with _ | ms' <;> rw [hr] at h
      · simp at h
      simp only [Option.bind_eq_bind, Option.some_bind, pure, Option.some_inj] at h
      subst h
      simp only [List.map_cons]
      rw [ih ms' hr, generate_length p.1 p.2 (fetch p.1 p.2) l hg]

/-- Claim C5: `export_multiple_months_csv` concatenates the
per-month daily rows in the given input order with no deduplication,
so the body row count is the sum of `daysInMonth` over all requested
pairs, and the single `GRAND TOTAL` row carries the sums of the
per-month column totals. -/
theorem claim_C5 (yearMonths : List (Int × Int)) (fetch : Int → Int → HttpResult)
    (fn : Option String) (e : CombinedCsv) (ms : List (List Row))
    (hms : yearMonths.mapM (fun p => generate_monthly_csv_data p.1 p.2 (fetch p.1 p.2)) = some ms)
    (h : export_multiple_months_csv yearMonths fetch fn = some e) :
    e.rows = ms.flatten
    ∧ e.rows.length = (yearMonths.map (fun p => daysInMonth p.1 p.2)).sum
    ∧ e.grandTotalDebit = (ms.map (fun l => (l.map Row.debit).sum)).sum
    ∧ e.grandTotalTips = (ms.map (fun l => (l.map Row.tip).sum)).sum
    ∧ e.grandTotalSales = (ms.map (fun l => (l.map Row.total).sum)).sum := by
  unfold export_multiple_months_csv at h
  dsimp only at h
  rw [collectMonths_eq fetch yearMonths ms [] 0 0 0 hms] at h
  simp only [Option.bind_eq_bind, Option.some_bind, List.nil_append, zero_add, pure,
    Option.some_inj] at h
  obtain rfl := h.symm
  refine ⟨rfl, ?_, rfl, rfl, rfl⟩
  show ms.flatten.length = _
  rw [List.length_flatten, ← mapM_generate_lengths fetch yearMonths ms hms]

theorem claim_C5_witness :
    ((export_multiple_months_csv twoMonths emptyFetch none).getD emptyCombined).rows
      = ((twoMonths.mapM
          (fun p => generate_monthly_csv_data p.1 p.2 (emptyFetch p.1 p.2))).getD []).flatten := by
  have hms : twoMonths.mapM (fun p => generate_monthly_csv_data p.1 p.2 (emptyFetch p.1 p.2))
      = some ((twoMonths.mapM
          (fun p => generate_monthly_csv_data p.1 p.2 (emptyFetch p.1 p.2))).getD []) := rfl
  have hexp : export_multiple_months_csv twoMonths emptyFetch none
      = some ((export_multiple_months_csv twoMonths emptyFetch none).getD emptyCombined) := rfl
  exact (claim_C5 twoMonths emptyFetch none _ _ hms hexp).1

end Clover

namespace Clover

theorem pySplitAux_no_comma :
    ∀ (l cur : List Char), (∀ c ∈ l, ¬ c = ',') → pySplitAux cur l = [cur.reverse ++ l] := by
  intro l
  induction l with
  | nil => intro cur _; simp [pySplitAux]
  | cons c cs ih =>
      intro cur h
      have hc : ¬ c = ',' := h c (List.mem_cons_self c cs)
      simp only [pySplitAux, if_neg hc]
      rw [ih (c :: cur) (fun d hd => h d (List.mem_cons_of_mem c hd))]
      simp

theorem pySplit_no_comma (s : String) (h : ¬ s.data.any (fun c => c = ',')) :
    pySplit s = [s] := by
  unfold pySplit
  have h2 : ',' ∉ s.data := by simpa using h
  rw [pySplitAux_no_comma s.data [] (fun c hcm hceq => h2 (hceq ▸ hcm))]
  rfl

theorem mapM_pyInt_none (parts : List String) (p : String) (hp : p ∈ parts)
    (h : pyInt? p = none) : parts.mapM pyInt? = none := by
  induction parts with
  | nil => simp at hp
  | cons a parts ih =>
      rw [List.mapM_cons]
      rcases List.mem_cons.mp hp with rfl | hp2
      · rw [h]; rfl
      · rcases ha : pyInt? a with _ | v
        · rfl
        · rw [ih hp2]
          rfl

theorem mapM_pyInt_mem (parts : List String) (vals : List Int)
    (h : parts.mapM pyInt? = some vals) (p : String) (hp : p ∈ parts) :
    ∃ v, pyInt? p = some v ∧ v ∈ vals := by
  induction parts generalizing vals with
  | nil => simp at hp
  | cons a parts ih =>
      rw [List.mapM_cons] at h
      rcases ha : pyInt? a with _ | v <;> rw [ha] at h
      · simp at h
      rcases hr : parts.mapM pyInt? with _ | vs <;> rw [hr] at h
      · simp at h
      simp only [Option.bind_eq_bind, Option.some_bind, pure, Option.some_inj] at h
      subst h
      rcases List.mem_cons.mp hp with rfl | hp2
      · exact ⟨v, ha, List.mem_cons_self v vs⟩
      · obtain ⟨w, hw1, hw2⟩ := ih vs hr hp2
        exact ⟨w, hw1, List.mem_cons_of_mem v hw2⟩

theorem parseMonths_error (year : Int) (s : String)
    (hbad : ∃ p ∈ pySplit s, pyInt? p = none ∨
      ∃ v : Int, pyInt? p = some v ∧ (v < 1 ∨ 12 < v)) :
    ∃ msg, parseMonths year s = .error msg := by
  obtain ⟨p, hp, hcase⟩ := hbad
  unfold parseMonths
  by_cases hc : s.data.any (fun c => c = ',')
  · rw [if_pos hc]
    rcases hm : (pySplit s).mapM pyInt? with _ | months
    · exact ⟨invalidFormatMsg, rfl⟩
    rcases hcase with hnone | ⟨v, hv, hrange⟩
    · rw [mapM_pyInt_none (pySplit s) p hp hnone] at hm
      simp at hm
    obtain ⟨w, hw1, hw2⟩ := mapM_pyInt_mem (pySplit s) months hm p hp
    obtain rfl : w = v := Option.some_inj.mp (hw1.symm.trans hv)
    dsimp only
    rcases hf : (months.map (fun m => (year, m))).find?
        (fun p => !(decide (1 ≤ p.2) && decide (p.2 ≤ 12))) with _ | p0
    · exfalso
      have hmem : (year, w) ∈ months.map (fun m => (year, m)) :=
        List.mem_map.mpr ⟨w, hw2, rfl⟩
      have hpred := List.find?_eq_none.mp hf (year, w) hmem
      simp at hpred
      omega
    · rw [hf]
      exact ⟨_, rfl⟩
  · rw [if_neg hc]
    rw [pySplit_no_comma s hc] at hp
    rw [List.mem_singleton] at hp
    subst hp
    rcases hcase with hnone | ⟨v, hv, hrange⟩
    · rw [hnone]
      exact ⟨invalidFormatMsg, rfl⟩
    · rw [hv]
      dsimp only
      have hb : (!(decide (1 ≤ v) && decide (v ≤ 12))) = true := by
        simp only [Bool.not_eq_true', Bool.and_eq_false_iff, decide_eq_false_iff_not]
        omega
      rw [if_pos hb]
      exact ⟨"Error: Month must be between 1 and 12", rfl⟩

end Clover

namespace Clover

/-- Claim C7: whenever any comma-separated part of `--month` fails
Python's `int()` or parses to a value outside 1..12, `main` returns a
month error, and whenever the resolved access token or merchant id is
falsy it returns the missing-credentials outcome — in both cases
through constructors that carry no fetch and no export, i.e. before
any network request or CSV file. -/
theorem claim_C7 (args : Args) (env : EnvVars) (cfg : Option ConfigModule)
    (fetch : Int → Int → HttpResult) :
    ((∃ p ∈ pySplit args.month, pyInt? p = none ∨
        ∃ v : Int, pyInt? p = some v ∧ (v < 1 ∨ 12 < v)) →
      ∃ msg, main args env cfg fetch = .monthError msg)
    ∧ (∀ yms, parseMonths args.year args.month = .ok yms →
        (pyTruthy (resolveCreds args env cfg).accessToken = false ∨
         pyTruthy (resolveCreds args env cfg).merchantId = false) →
        main args env cfg fetch = .credsMissing) := by
  constructor
  · intro hbad
    obtain ⟨msg, hmsg⟩ := parseMonths_error args.year args.month hbad
    refine ⟨msg, ?_⟩
    unfold main
    rw [hmsg]
  · intro yms hok hcreds
    unfold main
    rw [hok]
    dsimp only
    have hcond : (!pyTruthy (resolveCreds args env cfg).accessToken ||
        !pyTruthy (resolveCreds args env cfg).merchantId) = true := by
      rcases hcreds with h | h <;> simp [h]
    rw [if_pos hcond]

theorem claim_C7_witness :
    ∃ msg, main c7Args emptyEnv none emptyFetch = .monthError msg :=
  (claim_C7 c7Args emptyEnv none emptyFetch).1
    ⟨"13", by rw [show pySplit c7Args.month = ["13"] from rfl]; simp,
      Or.inr ⟨13, rfl, by norm_num⟩⟩

/-- Claim C8, counterexample: invoked with `--env` together with
`--token` and `--merchant`, the code resolves the environment
credentials while the claimed flags-first precedence would resolve
the flags — the two resolutions differ. -/
theorem claim_C8_counterexample :
    resolveCreds c8Args c8Env none ≠ resolveCredsSpec c8Args c8Env none := by
  decide

/-- Claim C8, amended: `--env` selects the environment variables
exclusively; otherwise `--token` and `--merchant` (both nonempty)
select the flags with the production base URL; otherwise the
`config.py` module is used — the environment is consulted only under
`--env`. The base URL defaults to the production host whenever unset
in the selected source. -/
theorem claim_C8_amended (args : Args) (env : EnvVars) (cfg : Option ConfigModule) :
    (args.env = true → resolveCreds args env cfg = load_config_from_env env)
    ∧ (args.env = false → (pyTruthy args.token && pyTruthy args.merchant) = true →
        resolveCreds args env cfg
          = { accessToken := args.token, merchantId := args.merchant, baseUrl := prodBaseUrl })
    ∧ (args.env = false → (pyTruthy args.token && pyTruthy args.merchant) = false →
        resolveCreds args env cfg = load_config_from_file cfg)
    ∧ (env.cloverBaseUrl = none → (load_config_from_env env).baseUrl = prodBaseUrl)
    ∧ (∀ c : ConfigModule, cfg = some c → c.cloverBaseUrl = none →
        (load_config_from_file cfg).baseUrl = prodBaseUrl)
    ∧ (cfg = none → load_config_from_file cfg
        = { accessToken := some "", merchantId := some "", baseUrl := prodBaseUrl }) := by
  refine ⟨?_, ?_, ?_, ?_, ?_, ?_⟩
  · intro h; simp [resolveCreds, h]
  · intro h1 h2; simp [resolveCreds, h1, h2]
  · intro h1 h2; simp [resolveCreds, h1, h2]
  · intro h; simp [load_config_from_env, h]
  · intro c h1 h2; simp [load_config_from_file, h1, h2]
  · intro h; simp [load_config_from_file, h]

theorem claim_C8_witness :
    resolveCreds c8Args c8Env none = load_config_from_env c8Env :=
  (claim_C8_amended c8Args c8Env none).1 rfl

end Clover

namespace Clover

theorem sum_inv (l : List Row) (h : ∀ r ∈ l, r.debit + r.tip = r.total) :
    (l.map Row.debit).sum + (l.map Row.tip).sum = (l.map Row.total).sum := by
  induction l with
  | nil => simp
  | cons r l ih =>
      simp only [List.map_cons, List.sum_cons]
      have h1 := h r (List.mem_cons_self r l)
      have h2 := ih (fun x hx => h x (List.mem_cons_of_mem r hx))
      linarith

theorem mapM_format_mem (l : List Json) (ss : List Row)
    (h : l.mapM _format_single_batch = some ss) :
    ∀ r ∈ ss, ∃ b ∈ l, _format_single_batch b = some r := by
  induction l generalizing ss with
  | nil =>
      simp only [List.mapM_nil, pure, Option.some_inj] at h
      subst h; simp
  | cons a l ih =>
      rw [List.mapM_cons] at h
      rcases ha : _format_single_batch a with _ | ra <;> rw [ha] at h
      · simp at h
      rcases hr : l.mapM _format_single_batch with _ | rs <;> rw [hr] at h
      · simp at h
      simp only [Option.bind_eq_bind, Option.some_bind, pure, Option.some_inj] at h
      subst h
      intro r hrm
      rcases List.mem_cons.mp hrm with rfl | hr2
      · exact ⟨a, List.mem_cons_self a l, ha⟩
      · obtain ⟨b, hbl, hbf⟩ := ih rs hr r hr2
        exact ⟨b, List.mem_cons_of_mem a hbl, hbf⟩

theorem generate_rows_inv (y m : Int) (http : HttpResult) (rows : List Row)
    (h : generate_monthly_csv_data y m http = some rows) :
    ∀ r ∈ rows, r.debit + r.tip = r.total := by
  obtain ⟨ss, hss⟩ := generate_some_inv y m http rows h
  have hssinv : ∀ r ∈ ss, r.debit + r.tip = r.total := by
    intro r hr
    obtain ⟨b, _, hb⟩ := mapM_format_mem _ ss hss r hr
    exact format_inv b r hb
  rw [generate_eq_some y m http ss hss] at h
  obtain rfl := (Option.some_inj.mp h).symm
  intro r hr
  obtain ⟨i, _, rfl⟩ := List.mem_map.mp hr
  show (dayTotals ss _).debit + (dayTotals ss _).tip = (dayTotals ss _).total
  unfold dayTotals
  exact sum_inv _ (fun x hx => hssinv x (List.mem_of_mem_filter hx))

theorem collectMonths_delta (fetch : Int → Int → HttpResult) :
    ∀ (yms : List (Int × Int)) (acc : List Row) (aD aT aS : ℚ)
      (out : List Row × ℚ × ℚ × ℚ),
    collectMonths fetch acc aD aT aS yms = some out →
    out.2.1 + out.2.2.1 - out.2.2.2 = aD + aT - aS := by
  intro yms
  induction yms with
  | nil =>
      intro acc aD aT aS out h
      simp only [collectMonths, Option.some_inj] at h
      subst h
      ring
  | cons p yms ih =>
      intro acc aD aT aS out h
      obtain ⟨y, m⟩ := p
      rcases hg : generate_monthly_csv_data y m (fetch y m) with _ | l
      · rw [show collectMonths fetch acc aD aT aS ((y, m) :: yms)
            = (do
                let monthlyData ← generate_monthly_csv_data y m (fetch y m)
                collectMonths fetch (acc ++ monthlyData)
                  (aD + (monthlyData.map Row.debit).sum)
                  (aT + (monthlyData.map Row.tip).sum)
                  (aS + (monthlyData.map Row.total).sum) yms) from rfl, hg] at h
        simp at h
      · rw [show collectMonths fetch acc aD aT aS ((y, m) :: yms)
            = (do
                let monthlyData ← generate_monthly_csv_data y m (fetch y m)
                collectMonths fetch (acc ++ monthlyData)
                  (aD + (monthlyData.map Row.debit).sum)
                  (aT + (monthlyData.map Row.tip).sum)
                  (aS + (monthlyData.map Row.total).sum) yms) from rfl, hg] at h
        have hmonth := sum_inv l (generate_rows_inv y m (fetch y m) l hg)
        have hrec := ih (acc ++ l) (aD + (l.map Row.debit).sum)
          (aT + (l.map Row.tip).sum) (aS + (l.map Row.total).sum) out h
        linarith

end Clover

namespace Clover

/-- Claim C9: the identity `debit + tip = total` holds, under exact
arithmetic, for every per-batch summary, every row produced by
`generate_monthly_csv_data`, the monthly `TOTAL` computed by
`export_monthly_csv`, and the `GRAND TOTAL` computed by
`export_multiple_months_csv`. -/
theorem claim_C9 :
    (∀ (b : Json) (r : Row), _format_single_batch b = some r → r.debit + r.tip = r.total)
    ∧ (∀ (y m : Int) (http : HttpResult) (rows : List Row),
        generate_monthly_csv_data y m http = some rows →
        ∀ r ∈ rows, r.debit + r.tip = r.total)
    ∧ (∀ (y m : Int) (http : HttpResult) (fn : Option String) (e : MonthlyCsv),
        export_monthly_csv y m http fn = some e →
        e.totalDebit + e.totalTips = e.totalSales)
    ∧ (∀ (yms : List (Int × Int)) (fetch : Int → Int → HttpResult)
        (fn : Option String) (e : CombinedCsv),
        export_multiple_months_csv yms fetch fn = some e →
        e.grandTotalDebit + e.grandTotalTips = e.grandTotalSales) := by
  refine ⟨format_inv, generate_rows_inv, ?_, ?_⟩
  · intro y m http fn e h
    rcases hg : generate_monthly_csv_data y m http with _ | rows
    · unfold export_monthly_csv at h
      dsimp only at h
      rw [hg] at h
      simp at h
    · rw [export_monthly_eq y m http fn rows hg] at h
      obtain rfl := (Option.some_inj.mp h).symm
      exact sum_inv rows (generate_rows_inv y m http rows hg)
  · intro yms fetch fn e h
    unfold export_multiple_months_csv at h
    dsimp only at h
    rcases hc : collectMonths fetch [] 0 0 0 yms with _ | out <;> rw [hc] at h
    · simp at h
    obtain ⟨rows, gd, gt, gs⟩ := out
    simp only [Option.bind_eq_bind, Option.some_bind, pure, Option.some_inj] at h
    obtain rfl := h.symm
    have hdelta := collectMonths_delta fetch yms [] 0 0 0 (rows, gd, gt, gs) hc
    simp only at hdelta
    show gd + gt = gs
    linarith

theorem claim_C9_witness :
    ((_format_single_batch sampleBatch).getD { date := "", debit := 0, tip := 0, total := 0 }).debit
      + ((_format_single_batch sampleBatch).getD
          { date := "", debit := 0, tip := 0, total := 0 }).tip
      = ((_format_single_batch sampleBatch).getD
          { date := "", debit := 0, tip := 0, total := 0 }).total :=
  claim_C9.1 sampleBatch
    ((_format_single_batch sampleBatch).getD { date := "", debit := 0, tip := 0, total := 0 }) rfl

end Clover
